import Mathlib

/-
  Verification development for the EventStoreML ("ESML") validator
  (eventstoreml.py).  The Python source is shallowly embedded below:
  JSON values become the inductive `Json`, the validator's mutable
  object state becomes the explicit record `VState` threaded through
  the functions, Python exceptions become the explicit outcome type
  `VOut`, and the unbounded recursion of the schema matcher is made
  total with an explicit fuel parameter (fuel exhaustion, `VOut.div`,
  models the non-terminating / stack-overflowing recursions that a
  cyclic `$ref` produces in the source).
-/

/-- A decoded JSON value as produced by Python's `json` module: `null`,
booleans, integers (`int`), floating numbers (`float`, represented as a
rational — JSON number literals are finite decimals), strings, arrays
(Python lists) and objects (Python dicts, kept as insertion-ordered
association lists with distinct keys, which is what `json.loads`
produces). -/
inductive Json where
  | null
  | bool (b : Bool)
  | int (n : Int)
  | float (q : Rat)
  | str (s : String)
  | arr (elems : List Json)
  | obj (entries : List (String × Json))

/-- First-match lookup in an object's entry list: Python `d.get(k)` /
`d[k]` on a dict (keys are distinct, so first match is the match). -/
def lookupJ : List (String × Json) → String → Option Json
  | [], _ => none
  | (k, v) :: rest, key => if k = key then some v else lookupJ rest key

/-- Python `k in d` for a dict with string keys. -/
def hasKeyJ (es : List (String × Json)) (key : String) : Bool :=
  (lookupJ es key).isSome

/-- Python `d[k] = v` on a dict: replacing an existing key keeps its
position, a new key is appended at the end. -/
def dsetJ : List (String × Json) → String → Json → List (String × Json)
  | [], key, v => [(key, v)]
  | (k, w) :: rest, key, v =>
    if k = key then (key, v) :: rest else (k, w) :: dsetJ rest key v

/-- Python `d.pop(k)` (ignoring the returned value): removes the entry
for `k`, keeping the order of the others. -/
def popKeyJ : List (String × Json) → String → List (String × Json)
  | [], _ => []
  | (k, v) :: rest, key => if k = key then rest else (k, v) :: popKeyJ rest key

mutual
/-- Python `==` on decoded JSON values, as used by
`_same_typedeclared_schema`: dict comparison ignores insertion order;
`True == 1 == 1.0` (bools are numeric in Python); lists compare
pointwise. -/
def pyEq : Json → Json → Bool
  | .null, .null => true
  | .bool a, .bool b => a == b
  | .bool a, .int m => (if a then (1 : Int) else 0) == m
  | .int n, .bool b => n == (if b then (1 : Int) else 0)
  | .bool a, .float q => decide (((if a then (1 : Int) else 0) : Rat) = q)
  | .float q, .bool b => decide (q = ((if b then (1 : Int) else 0) : Rat))
  | .int n, .int m => n == m
  | .int n, .float q => decide ((n : Rat) = q)
  | .float q, .int n => decide (q = (n : Rat))
  | .float p, .float q => decide (p = q)
  | .str s, .str t => s == t
  | .arr xs, .arr ys => pyEqList xs ys
  | .obj es, .obj fs => es.length == fs.length && pyEqEntries es fs
  | _, _ => false

/-- Pointwise Python `==` on lists. -/
def pyEqList : List Json → List Json → Bool
  | [], [] => true
  | x :: xs, y :: ys => pyEq x y && pyEqList xs ys
  | _, _ => false

/-- One inclusion of Python dict equality: every entry of the first
dict has an equal entry in the second (with equal lengths and distinct
keys this is full dict equality). -/
def pyEqEntries : List (String × Json) → List (String × Json) → Bool
  | [], _ => true
  | (k, v) :: rest, fs =>
    (match lookupJ fs k with
     | some w => pyEq v w
     | none => false) && pyEqEntries rest fs
end

/-- Python list membership `x in xs` (elementwise `==`). -/
def pyMem (x : Json) : List Json → Bool
  | [] => false
  | y :: ys => pyEq y x || pyMem x ys

/-- Python truthiness of a decoded JSON value (`None`, `False`, `0`,
`0.0`, `""`, `[]`, `{}` are falsy), as used by `schema.get(k) or dflt`. -/
def pyFalsy : Json → Bool
  | .null => true
  | .bool b => !b
  | .int n => n == 0
  | .float q => decide (q = 0)
  | .str s => s.isEmpty
  | .arr xs => xs.isEmpty
  | .obj es => es.isEmpty

/- ------------- type tag parsing (name@version) ------------- -/

/-- Splits a character list at the first occurrence of `c`:
`some (before, after)` when `c` occurs, `none` otherwise.  The
`before` part never contains `c`. -/
def splitAtFirst (c : Char) : List Char → Option (List Char × List Char)
  | [] => none
  | x :: xs =>
    if x = c then some ([], xs)
    else (splitAtFirst c xs).map (fun p => (x :: p.1, p.2))

/-- Embeds `parse_type_tag`, i.e. a full match of the Python regex
`^(?P<name>[^@]+)(?:@(?P<ver>.+))?$` (module defaults: `.` matches any
character except a newline; `$` matches at the end of the string or
just before a newline that ends the string).  Consequences, mirrored
here: the whole string matches with `ver` absent when it is non-empty
and `'@'`-free (`name`, matched greedily, may contain newlines); when a
first `'@'` is present, the part before it must be non-empty (it
becomes `name`) and the part after it must be non-empty and
newline-free — except that a single newline in final position is
allowed and excluded from `ver` (`.+` stops before it, `$` accepts it).
`none` models the `ValueError("invalid type tag: ...")` raise. -/
def parse_type_tag (tag : List Char) : Option (List Char × Option (List Char)) :=
  match splitAtFirst '@' tag with
  | none => if tag = [] then none else some (tag, none)
  | some (name, rest) =>
    if name = [] then none
    else
      match splitAtFirst '\n' rest with
      | none => if rest = [] then none else some (name, some rest)
      | some (u, after) =>
        if after = [] && !(u = []) then some (name, some u) else none

/- ------------- helpers for line/col reporting ------------- -/

/-- Offsets just after each newline of `text`, the scan starting at
offset `i`. -/
def lineStartsFrom : List Char → Nat → List Nat
  | [], _ => []
  | ch :: rest, i =>
    if ch = '\n' then (i + 1) :: lineStartsFrom rest (i + 1)
    else lineStartsFrom rest (i + 1)

/-- Embeds `_line_starts`: the offset 0 followed by every offset just
after a newline character, in increasing order. -/
def _line_starts (text : List Char) : List Nat :=
  0 :: lineStartsFrom text 0

/-- Python `bisect.bisect_right(xs, pos)` on a sorted list: the number
of elements `≤ pos` (on the sorted lists produced by `_line_starts`,
`takeWhile` counts exactly those). -/
def bisect_right (xs : List Nat) (pos : Nat) : Nat :=
  (xs.takeWhile (fun x => x ≤ pos)).length

/-- Embeds `_pos_to_linecol`: 1-based line and column of offset `pos`
given the line-start table. -/
def _pos_to_linecol (starts : List Nat) (pos : Nat) : Nat × Nat :=
  let line_idx := bisect_right starts pos - 1
  let line_start := starts.getD line_idx 0
  (line_idx + 1, pos - line_start + 1)

/- ------------- error type and outcomes ------------- -/

/-- The reason carried by an `ESMLValidationError`, one constructor per
`raise` site of the source (the source's message string is quoted in
each comment). -/
inductive Reason where
  /-- "event must be an object" -/
  | eventNotObject
  /-- "event missing 'type'" -/
  | eventMissingType
  /-- "event missing 'data'" -/
  | eventMissingData
  /-- "'type' must be a string" -/
  | typeNotString
  /-- "type NAME[@VER] used before declaration" -/
  | usedBeforeDeclaration (name : List Char) (ver : Option (List Char))
  /-- "declarer NAME[@VER] not registered" -/
  | declarerNotRegistered (name : List Char) (ver : Option (List Char))
  /-- "declared 'name' must be string" -/
  | declaredNameNotString
  /-- "'schema' must be object" -/
  | declaredSchemaNotObject
  /-- "TypeDeclared may only be declared once (the self-declaration)" -/
  | duplicateSelfDeclaration
  /-- "file attempts to redefine TypeDeclared with a different shape" -/
  | selfDeclShapeMismatch
  /-- "CTX: unsupported $ref 'REF'" -/
  | unsupportedRefForm (ctx : String)
  /-- "CTX: $ref 'REF' not found" -/
  | refNotFound (ctx : String) (tagName : List Char) (tagVer : Option (List Char))
  /-- "CTX: expected object" -/
  | expectedObject (ctx : String)
  /-- "CTX: missing required property 'REQ'" -/
  | missingRequired (ctx : String) (req : String)
  /-- "CTX: additional property 'K' not allowed" -/
  | additionalNotAllowed (ctx : String) (k : String)
  /-- "CTX: expected array" -/
  | expectedArray (ctx : String)
  /-- "CTX: expected string" -/
  | expectedString (ctx : String)
  /-- "CTX: expected integer" -/
  | expectedInteger (ctx : String)
  /-- "CTX: expected number" -/
  | expectedNumber (ctx : String)
  /-- "CTX: expected boolean" -/
  | expectedBoolean (ctx : String)
  /-- "CTX: unsupported type 'T'" -/
  | unsupportedType (ctx : String)
deriving DecidableEq

/-- An error escaping the validator.  `esml` is the structured
`ESMLValidationError(message, line, col, event_index)`.  `invalidTag`
is the bare `ValueError` that `parse_type_tag` raises — it carries no
position and no event index.  `hostError` stands for the host-level
`TypeError` / `AttributeError` / `ValueError` exceptions the source can
hit on degenerate values (for example `dict(5)` inside
`_same_typedeclared_schema`, or `payload.get` on a non-dict payload) —
also unpositioned. -/
inductive VErr where
  | esml (reason : Reason) (line col event_index : Nat)
  | invalidTag (tag : List Char)
  | hostError
deriving DecidableEq

/-- Outcome of running a piece of the validator: success, a raised
error, or `div` when the fuel ran out (modelling the unbounded
recursion a cyclic `$ref` chain causes in the source). -/
inductive VOut where
  | ok
  | err (e : VErr)
  | div
deriving DecidableEq

/-- Sequencing with Python exception semantics: the first non-`ok`
outcome wins. -/
def VOut.seq : VOut → (Unit → VOut) → VOut
  | .ok, k => k ()
  | r, _ => r

/- ------------- registry, declarator set, validator state ------------- -/

/-- A `(name, version)` type tag, the key of the registry and of the
declarator set (Python tuples `(name, ver)`). -/
structure TypeTag where
  name : List Char
  ver : Option (List Char)
deriving DecidableEq

/-- The bootstrap tag `("TypeDeclared", None)`. -/
def bootstrapTag : TypeTag := ⟨"TypeDeclared".data, none⟩

/-- Registry lookup `self.registry.get(name, dict()).get(ver)`, on the
flattened per-`(name, ver)` association list. -/
def regGet : List (TypeTag × Json) → TypeTag → Option Json
  | [], _ => none
  | (t, s) :: rest, tag => if t = tag then some s else regGet rest tag

/-- Registry write `self.registry.setdefault(name, dict())[ver] = schema`:
overwrite in place, or append a fresh entry. -/
def regSet : List (TypeTag × Json) → TypeTag → Json → List (TypeTag × Json)
  | [], tag, s => [(tag, s)]
  | (t, w) :: rest, tag, s =>
    if t = tag then (tag, s) :: rest else (t, w) :: regSet rest tag s

/-- Python `set.add`: idempotent insertion into the declarator set. -/
def addTag (l : List TypeTag) (t : TypeTag) : List TypeTag :=
  if t ∈ l then l else l ++ [t]

/-- `self.event_type_counts[key] = self.event_type_counts.get(key, 0) + 1`. -/
def bumpCount : List (TypeTag × Nat) → TypeTag → List (TypeTag × Nat)
  | [], tag => [(tag, 1)]
  | (t, n) :: rest, tag =>
    if t = tag then (tag, n + 1) :: rest else (t, n) :: bumpCount rest tag

/-- The mutable fields of `ESMLValidator`, threaded explicitly. -/
structure VState where
  registry : List (TypeTag × Json)
  declarator_candidates : List TypeTag
  collect_summary : Bool
  event_count : Nat
  declarer_event_count : Nat
  normal_event_count : Nat
  declared_types : List TypeTag
  event_type_counts : List (TypeTag × Nat)

/-- The entry list of `ESMLValidator.BUILTIN_TYPEDECLARED_SCHEMA`. -/
def BUILTIN_entries : List (String × Json) :=
  [("type", .str "object"),
   ("properties", .obj [
     ("name", .obj [("type", .str "string")]),
     ("log", .obj [("type", .str "string")]),
     ("schema", .obj [("type", .str "object")])]),
   ("required", .arr [.str "name", .str "schema"]),
   ("additionalProperties", .bool false)]

/-- `ESMLValidator.BUILTIN_TYPEDECLARED_SCHEMA` as a JSON value. -/
def BUILTIN_TYPEDECLARED_SCHEMA : Json := .obj BUILTIN_entries

/-- `ESMLValidator.__init__(collect_summary)`: empty state except for
the hard-coded bootstrap registration and declarator entry. -/
def initState (collect_summary : Bool) : VState :=
  { registry := [(bootstrapTag, BUILTIN_TYPEDECLARED_SCHEMA)]
    declarator_candidates := [bootstrapTag]
    collect_summary := collect_summary
    event_count := 0
    declarer_event_count := 0
    normal_event_count := 0
    declared_types := []
    event_type_counts := [] }

/- ------------- TypeDeclared self-declaration comparison ------------- -/

/-- The pair-list part of Python `dict(x)` on a list: elements must be
two-element sequences; a two-element JSON array with a string first
component yields an entry (later pairs overwrite earlier ones).  Any
other element shape is modelled as a host error: elements that are not
two-element sequences raise `ValueError`/`TypeError`, and the remaining
exotic shapes Python does accept (pairs with non-string hashable keys,
two-character strings) build dicts outside this String-keyed model —
every one of them disagrees with the builtin schema's string-keyed
`properties`, so collapsing them into the host-error outcome never
turns a success into a failure or vice versa for the claims below. -/
def pyDictPairs : List Json → List (String × Json) → Option (List (String × Json))
  | [], acc => some acc
  | .arr [.str k, v] :: rest, acc => pyDictPairs rest (dsetJ acc k v)
  | _ :: _, _ => none

/-- Python `dict(x)` as used by `normalize` inside
`_same_typedeclared_schema`: a dict is copied, a list is converted
pairwise, anything else (numbers, booleans, `None`, strings) raises —
modelled as `none`. -/
def pyDictOfJson : Json → Option (List (String × Json))
  | .obj es => some es
  | .arr xs => pyDictPairs xs []
  | _ => none

/-- `normalize(s)` from `_same_typedeclared_schema`: copy `s`, convert
`s.get("properties", dict())` into a fresh dict, pop `"log"` from it,
and store it back under `"properties"` (adding the key if it was
absent).  `none` models the host `TypeError`/`ValueError` from
`dict(...)` on a non-convertible `properties` value. -/
def normalizeTD (s : List (String × Json)) : Option (List (String × Json)) :=
  let propsVal := match lookupJ s "properties" with
                  | some v => v
                  | none => Json.obj []
  match pyDictOfJson propsVal with
  | none => none
  | some props => some (dsetJ s "properties" (.obj (popKeyJ props "log")))

/-- Embeds `_same_typedeclared_schema`: Python
`normalize(file_schema) == normalize(builtin)` (the file side is
normalized first, so a crash there precedes the comparison). -/
def _same_typedeclared_schema (file_schema : List (String × Json)) : Option Bool :=
  match normalizeTD file_schema with
  | none => none
  | some a =>
    match normalizeTD BUILTIN_entries with
    | none => none
    | some b => some (pyEq (.obj a) (.obj b))

/- ------------- declarer-shape predicate ------------- -/

/-- Embeds `_schema_looks_like_declarer`.  The early `return False`
paths of the source become the `&&` short-circuits: `type` must compare
`==` to `"object"`, `properties` must be a dict containing the keys
`name` and `schema`, and `required` (defaulting to `[]` when the key is
absent) must be a list containing `"name"` and `"schema"` as elements. -/
def _schema_looks_like_declarer (schema : Json) : Bool :=
  match schema with
  | .obj es =>
    (match lookupJ es "type" with
     | some t => pyEq t (.str "object")
     | none => false) &&
    (match lookupJ es "properties" with
     | some (.obj ps) => hasKeyJ ps "name" && hasKeyJ ps "schema"
     | _ => false) &&
    (match (match lookupJ es "required" with
            | none => Json.arr []
            | some v => v) with
     | .arr rs => pyMem (.str "name") rs && pyMem (.str "schema") rs
     | _ => false)
  | _ => false

/- ------------- JSON validation (small subset + $ref) ------------- -/

/-- `strStartsWith pat s` is true iff `s` starts with `pat` (Python
`s.startswith(pat)`; the pattern comes first so that the recursion is
structural on it). -/
def strStartsWith (pat s : List Char) : Bool :=
  match pat, s with
  | [], _ => true
  | _ :: _, [] => false
  | b :: bs, a :: as => a == b && strStartsWith bs as

/-- Python `for x in v` over a decoded JSON value: lists yield their
elements, strings their one-character substrings, dicts their keys;
numbers, booleans and `None` are not iterable (`none` = `TypeError`). -/
def pyIterate : Json → Option (List Json)
  | .arr xs => some xs
  | .str s => some (s.data.map (fun c => Json.str (String.mk [c])))
  | .obj es => some (es.map (fun p => Json.str p.1))
  | _ => none

/-- The `for req in required` body of the object case: `req not in
value` is dict-key membership, so a string is looked up among the keys,
other hashable primitives are never equal to a string key (and the
error message interpolates them), and unhashable values (lists, dicts)
raise a host `TypeError`. -/
def checkRequiredOne (ves : List (String × Json)) (req : Json)
    (line col ei : Nat) (ctx : String) : VOut :=
  match req with
  | .str s => if hasKeyJ ves s then .ok
              else .err (.esml (.missingRequired ctx s) line col ei)
  | .arr _ => .err .hostError
  | .obj _ => .err .hostError
  | _ => .err (.esml (.missingRequired ctx "") line col ei)

/-- Embeds `_validate_json`, the recursive schema matcher, made total
by fuel (`VOut.div` = fuel ran out; the source recursion is unbounded
and can genuinely diverge on cyclic `$ref` chains).  Every recursive
call of the source becomes a call at one less fuel.  A non-dict schema
value makes the source raise a host error at `"$ref" in schema` /
`schema.get` (`TypeError`/`AttributeError`), modelled by `hostError`. -/
def _validate_json : Nat → List (TypeTag × Json) → Json → Json →
    Nat → Nat → Nat → String → VOut
  | 0, _, _, _, _, _, _, _ => .div
  | fuel + 1, reg, value, schema, line, col, ei, ctx =>
    match schema with
    | .obj ses =>
      match lookupJ ses "$ref" with
      | some ref =>
        match ref with
        | .str r =>
          if strStartsWith "#/$defs/".data r.data then
            match parse_type_tag (r.data.drop 8) with
            | none => .err (.invalidTag (r.data.drop 8))
            | some (rname, rver) =>
              match regGet reg ⟨rname, rver⟩ with
              | none => .err (.esml (.refNotFound ctx rname rver) line col ei)
              | some target => _validate_json fuel reg value target line col ei ctx
          else .err (.esml (.unsupportedRefForm ctx) line col ei)
        | _ => .err (.esml (.unsupportedRefForm ctx) line col ei)
      | none =>
        match lookupJ ses "type" with
        | none => .ok
        | some .null => .ok
        | some (.str "object") =>
          match value with
          | .obj ves =>
            let props := match lookupJ ses "properties" with
                         | none => Json.obj []
                         | some v => if pyFalsy v then Json.obj [] else v
            let required := match lookupJ ses "required" with
                            | none => Json.arr []
                            | some v => if pyFalsy v then Json.arr [] else v
            let reqStep :=
              match pyIterate required with
              | none => VOut.err .hostError
              | some reqs =>
                reqs.foldl (fun (acc : VOut) req =>
                  acc.seq (fun _ => checkRequiredOne ves req line col ei ctx)) .ok
            reqStep.seq (fun _ =>
              match props with
              | .obj pes =>
                (pes.foldl (fun (acc : VOut) kv =>
                    acc.seq (fun _ =>
                      match lookupJ ves kv.1 with
                      | some vv =>
                        _validate_json fuel reg vv kv.2 line col ei (ctx ++ "." ++ kv.1)
                      | none => .ok)) .ok).seq (fun _ =>
                  match (match lookupJ ses "additionalProperties" with
                         | none => Json.bool true
                         | some v => v) with
                  | .bool false =>
                    ves.foldl (fun (acc : VOut) kv =>
                      acc.seq (fun _ =>
                        if hasKeyJ pes kv.1 then .ok
                        else .err (.esml (.additionalNotAllowed ctx kv.1) line col ei))) .ok
                  | .obj aps =>
                    ves.foldl (fun (acc : VOut) kv =>
                      acc.seq (fun _ =>
                        if hasKeyJ pes kv.1 then .ok
                        else _validate_json fuel reg kv.2 (.obj aps) line col ei
                               (ctx ++ "." ++ kv.1))) .ok
                  | _ => .ok)
              | _ => .err .hostError)
          | _ => .err (.esml (.expectedObject ctx) line col ei)
        | some (.str "array") =>
          match value with
          | .arr xs =>
            match lookupJ ses "items" with
            | none => .ok
            | some .null => .ok
            | some item_schema =>
              xs.enum.foldl (fun (acc : VOut) it =>
                acc.seq (fun _ =>
                  _validate_json fuel reg it.2 item_schema line col ei
                    (ctx ++ "[" ++ toString it.1 ++ "]"))) .ok
          | _ => .err (.esml (.expectedArray ctx) line col ei)
        | some (.str "string") =>
          match value with
          | .str _ => .ok
          | _ => .err (.esml (.expectedString ctx) line col ei)
        | some (.str "integer") =>
          -- the source's `isinstance(value, int) and not isinstance(value, bool)`
          -- (bools are ints in Python): in this embedding booleans are a
          -- separate constructor, so the exclusion is the absence of a
          -- `.bool` case here
          match value with
          | .int _ => .ok
          | _ => .err (.esml (.expectedInteger ctx) line col ei)
        | some (.str "number") =>
          -- `(isinstance(value, int) or isinstance(value, float)) and not
          -- isinstance(value, bool)`
          match value with
          | .int _ => .ok
          | .float _ => .ok
          | _ => .err (.esml (.expectedNumber ctx) line col ei)
        | some (.str "boolean") =>
          match value with
          | .bool _ => .ok
          | _ => .err (.esml (.expectedBoolean ctx) line col ei)
        | some _ => .err (.esml (.unsupportedType ctx) line col ei)
    | _ => .err .hostError

/- ------------- event validator (orchestrator) ------------- -/

/-- `self._inc_event_type(name, ver)` guarded by `collect_summary`
(source lines 199-200). -/
def summaryTick (st : VState) (tag : TypeTag) : VState :=
  if st.collect_summary then
    { st with event_type_counts := bumpCount st.event_type_counts tag }
  else st

/-- `self.declarer_event_count += 1` guarded by `collect_summary`
(source lines 204-205). -/
def declarerTick (st : VState) : VState :=
  if st.collect_summary then
    { st with declarer_event_count := st.declarer_event_count + 1 }
  else st

/-- `self.normal_event_count += 1` guarded by `collect_summary`
(source lines 219-220). -/
def normalTick (st : VState) : VState :=
  if st.collect_summary then
    { st with normal_event_count := st.normal_event_count + 1 }
  else st

/-- The registration tail of `_handle_declarer_event` (source lines
292-300): register the schema (last one wins), record it in
`declared_types` when summarising, and add the tag to the declarator
set when the schema itself looks like a declarer. -/
def registerDeclared (st : VState) (tag : TypeTag) (ses : List (String × Json)) : VState :=
  let st1 := { st with registry := regSet st.registry tag (.obj ses) }
  let st2 := if st1.collect_summary then
               { st1 with declared_types := st1.declared_types ++ [tag] }
             else st1
  if _schema_looks_like_declarer (.obj ses) then
    { st2 with declarator_candidates := addTag st2.declarator_candidates tag }
  else st2

/-- Embeds `_handle_declarer_event`.  The state in the returned pair is
the validator object after the call — unchanged on every error path,
since the source performs no mutation between entry and its last
possible `raise`.  `payload.get` on a non-dict payload is the host
`AttributeError` (reachable when a declarator tag was re-declared with
a schema that no longer forces an object payload). -/
def _handle_declarer_event (fuel : Nat) (st : VState) (declarer_name : List Char)
    (declarer_ver : Option (List Char)) (payload : Json)
    (line col event_index : Nat) : VState × VOut :=
  match regGet st.registry ⟨declarer_name, declarer_ver⟩ with
  | none =>
    (st, .err (.esml (.declarerNotRegistered declarer_name declarer_ver) line col event_index))
  | some decl_schema =>
    match _validate_json fuel st.registry payload decl_schema line col event_index
            (String.mk declarer_name) with
    | .err e => (st, .err e)
    | .div => (st, .div)
    | .ok =>
      match payload with
      | .obj pes =>
        match lookupJ pes "name" with
        | some (.str raw_name) =>
          match lookupJ pes "schema" with
          | some (.obj ses) =>
            match parse_type_tag raw_name.data with
            | none => (st, .err (.invalidTag raw_name.data))
            | some (dname, dver) =>
              if dname = "TypeDeclared".data ∧ dver = none then
                if bootstrapTag ∈ st.declared_types then
                  (st, .err (.esml .duplicateSelfDeclaration line col event_index))
                else
                  match _same_typedeclared_schema ses with
                  | none => (st, .err .hostError)
                  | some false =>
                    (st, .err (.esml .selfDeclShapeMismatch line col event_index))
                  | some true => (registerDeclared st ⟨dname, dver⟩ ses, .ok)
              else (registerDeclared st ⟨dname, dver⟩ ses, .ok)
          | _ => (st, .err (.esml .declaredSchemaNotObject line col event_index))
        | _ => (st, .err (.esml .declaredNameNotString line col event_index))
      | _ => (st, .err .hostError)

/-- Embeds `_validate_event`: event-shape checks, tag parsing, summary
counter bumps (which, in the source, mutate `self` before the later
error points), then dispatch on declarator-set membership. -/
def _validate_event (fuel : Nat) (st : VState) (obj : Json)
    (event_index line col : Nat) : VState × VOut :=
  match obj with
  | .obj oes =>
    match lookupJ oes "type" with
    | none => (st, .err (.esml .eventMissingType line col event_index))
    | some t =>
      match lookupJ oes "data" with
      | none => (st, .err (.esml .eventMissingData line col event_index))
      | some payload =>
        match t with
        | .str ts =>
          match parse_type_tag ts.data with
          | none => (st, .err (.invalidTag ts.data))
          | some (name, ver) =>
            let st1 := summaryTick st ⟨name, ver⟩
            if (⟨name, ver⟩ : TypeTag) ∈ st1.declarator_candidates then
              _handle_declarer_event fuel (declarerTick st1) name ver payload
                line col event_index
            else
              match regGet st1.registry ⟨name, ver⟩ with
              | none =>
                (st1, .err (.esml (.usedBeforeDeclaration name ver) line col event_index))
              | some schema =>
                let st2 := normalTick st1
                (st2, _validate_json fuel st1.registry payload schema line col
                        event_index (String.mk name))
        | _ => (st, .err (.esml .typeNotString line col event_index))
  | _ => (st, .err (.esml .eventNotObject line col event_index))

/-- The decoding loop of `validate_text`, over the already-decoded
stream: the host `json.JSONDecoder.raw_decode` and the whitespace
skipping are represented by the input list of `(value, start offset)`
pairs, where the offset is the position of the event's first character
(the source computes `line, col` from exactly that offset).  A value
that fails to decode makes the source propagate the host's
`json.JSONDecodeError` — an abort that happens outside this
already-decoded model and is NOT an `ESMLValidationError`.
`event_count` is incremented only after an event validates. -/
def validate_events_from (fuel : Nat) (starts : List Nat) :
    VState → List (Json × Nat) → Nat → VState × VOut
  | st, [], _ => (st, .ok)
  | st, (obj, startPos) :: rest, event_index =>
    let lc := _pos_to_linecol starts startPos
    match _validate_event fuel st obj event_index lc.1 lc.2 with
    | (st', .ok) =>
      validate_events_from fuel starts { st' with event_count := st'.event_count + 1 }
        rest (event_index + 1)
    | (st', r) => (st', r)

/-- Embeds `validate_text` composed with `ESMLValidator.__init__`: one
full validation run over a decoded event stream, with positions taken
against `text`. -/
def validate_text (fuel : Nat) (text : List Char) (events : List (Json × Nat))
    (collect_summary : Bool) : VState × VOut :=
  validate_events_from fuel (_line_starts text) (initState collect_summary) events 0

/- ------------- definitions used only by the statements ------------- -/

/-- `rs` has the string `a` among its entries (elementwise comparison,
as Python `"a" in rs` behaves on a list: a string compares equal only
to an equal string). -/
def hasStrElem (rs : List Json) (a : String) : Bool :=
  rs.any (fun x => match x with
    | .str s => s == a
    | _ => false)

/-- The declarer-shape predicate exactly as the spec words it (§4.2):
true iff the schema's `type` is `object`; `properties` is present and
contains keys `name` and `schema`; `required` is present and contains
both `name` and `schema` as entries.  This is the comparison definition
for the refinement claim C7 — written from the spec's sentence, not
from the code. -/
def declarerShapeFromSpec (schema : Json) : Bool :=
  match schema with
  | .obj es =>
    (match lookupJ es "type" with
     | some (.str t) => t == "object"
     | _ => false) &&
    (match lookupJ es "properties" with
     | some (.obj ps) => hasKeyJ ps "name" && hasKeyJ ps "schema"
     | _ => false) &&
    (match lookupJ es "required" with
     | some (.arr rs) => hasStrElem rs "name" && hasStrElem rs "schema"
     | _ => false)
  | _ => false

/-- An outcome whose structured errors (if any) carry exactly the given
position data — the invariant behind claim C3. -/
def PosOk (line col ei : Nat) (r : VOut) : Prop :=
  ∀ reason l c i, r = .err (.esml reason l c i) → l = line ∧ c = col ∧ i = ei

/-- A well-formed self-declaration event for the bootstrap type: its
payload re-declares `TypeDeclared` with exactly the builtin schema. -/
def selfDeclEvent : Json :=
  .obj [("type", .str "TypeDeclared"),
        ("data", .obj [("name", .str "TypeDeclared"),
                       ("schema", BUILTIN_TYPEDECLARED_SCHEMA)])]

/- ==================== theorems ==================== -/

/- ---- helper lemmas about splitAtFirst ---- -/

lemma splitAtFirst_of_not_mem {c : Char} : ∀ {s : List Char}, c ∉ s →
    splitAtFirst c s = none := by
  intro s h
  induction s with
  | nil => rfl
  | cons x xs ih =>
    have hx : ¬ x = c := fun he => h (he ▸ List.mem_cons_self x xs)
    have hxs : c ∉ xs := fun hm => h (List.mem_cons_of_mem x hm)
    simp [splitAtFirst, hx, ih hxs]

lemma splitAtFirst_append {c : Char} : ∀ {a : List Char} (b : List Char), c ∉ a →
    splitAtFirst c (a ++ c :: b) = some (a, b) := by
  intro a
  induction a with
  | nil => intro b _; simp [splitAtFirst]
  | cons x xs ih =>
    intro b h
    have hx : ¬ x = c := fun he => h (he ▸ List.mem_cons_self x xs)
    have hxs : c ∉ xs := fun hm => h (List.mem_cons_of_mem x hm)
    simp [splitAtFirst, hx, ih b hxs]

/- ---- C1 ---- -/

/-- C1 (code bug): the claim says a second self-declaration of the
bootstrap tag fails with `DuplicateSelfDeclaration` independently of
whether summary collection is enabled.  The source tracks previous
self-declarations only in `self.declared_types`, which is appended to
only under `if self.collect_summary:`; so with summary collection off
the very same stream — two identical, builtin-matching
self-declarations of `TypeDeclared` — validates cleanly, while with
summary collection on the second event fails as the claim (and the
class's own docstring, "later undeclared TypeDeclared (no @) is
forbidden") demands. -/
theorem c1_duplicate_self_decl_summary_dependent :
    (validate_text 10 [] [(selfDeclEvent, 0), (selfDeclEvent, 0)] false).2 = VOut.ok ∧
    (validate_text 10 [] [(selfDeclEvent, 0), (selfDeclEvent, 0)] true).2 =
      VOut.err (.esml .duplicateSelfDeclaration 1 1 1) := by
  constructor <;> decide

/- ---- C2 ---- -/

/-- C2 (counterexample): the tag `"@"` is non-empty, yet
`parse_type_tag` rejects it (the regex requires at least one
non-`'@'` character before a `'@'`), refuting "every non-empty tag
string parses successfully". -/
theorem c2_nonempty_tag_fails : parse_type_tag ['@'] = none ∧ (['@'] : List Char) ≠ [] := by
  constructor <;> decide

/-- C2 (amended): `parse_type_tag` fails on the empty tag, but also on
some non-empty tags: those whose part before the first `'@'` is empty,
and those with an `'@'` whose version part (the text after the first
`'@'`) is empty, starts with a newline, or has any character after its
first newline.  Every `'@'`-free non-empty tag parses to `(tag, none)`;
a tag `name ++ '@' ++ rest` with non-empty `'@'`-free `name` and
non-empty newline-free `rest` parses to `(name, some rest)`; a single
newline ending the version part is dropped from it. -/
theorem c2_tag_grammar :
    parse_type_tag [] = none ∧
    (∀ s : List Char, s ≠ [] → '@' ∉ s → parse_type_tag s = some (s, none)) ∧
    (∀ name rest : List Char, name ≠ [] → '@' ∉ name → rest ≠ [] → '\n' ∉ rest →
      parse_type_tag (name ++ '@' :: rest) = some (name, some rest)) ∧
    (∀ rest : List Char, parse_type_tag ('@' :: rest) = none) ∧
    (∀ name : List Char, '@' ∉ name → parse_type_tag (name ++ ['@']) = none) ∧
    (∀ name u : List Char, name ≠ [] → '@' ∉ name → u ≠ [] → '\n' ∉ u →
      parse_type_tag (name ++ '@' :: (u ++ ['\n'])) = some (name, some u)) ∧
    (∀ name u w : List Char, '@' ∉ name → '\n' ∉ u → w ≠ [] →
      parse_type_tag (name ++ '@' :: (u ++ '\n' :: w)) = none) ∧
    (∀ name w : List Char, '@' ∉ name →
      parse_type_tag (name ++ '@' :: '\n' :: w) = none) := by
  refine ⟨rfl, ?_, ?_, ?_, ?_, ?_, ?_, ?_⟩
  · intro s hne hnm
    simp [parse_type_tag, splitAtFirst_of_not_mem hnm, hne]
  · intro name rest hname hnm hrest hnl
    simp [parse_type_tag, splitAtFirst_append rest hnm, hname,
      splitAtFirst_of_not_mem hnl, hrest]
  · intro rest
    simp [parse_type_tag, splitAtFirst]
  · intro name hnm
    rcases List.eq_nil_or_concat name with hn | _
    · subst hn; simp [parse_type_tag, splitAtFirst]
    · have h := splitAtFirst_append (c := '@') (a := name) [] hnm
      by_cases hname : name = []
      · subst hname; simp [parse_type_tag, splitAtFirst]
      · simp [parse_type_tag, h, hname, splitAtFirst]
  · intro name u hname hnm hu hnl
    simp [parse_type_tag, splitAtFirst_append (u ++ ['\n']) hnm, hname,
      splitAtFirst_append (c := '\n') [] hnl, hu]
  · intro name u w hnm hnl hw
    by_cases hname : name = []
    · subst hname; simp [parse_type_tag, splitAtFirst]
    · simp [parse_type_tag, splitAtFirst_append (u ++ '\n' :: w) hnm, hname,
        splitAtFirst_append (c := '\n') w hnl, hw]
  · intro name w hnm
    by_cases hname : name = []
    · subst hname; simp [parse_type_tag, splitAtFirst]
    · simp [parse_type_tag, splitAtFirst_append ('\n' :: w) hnm, hname, splitAtFirst]

/-- C2 (witness): the amended grammar at the concrete tag `"a@b"`. -/
theorem c2_tag_grammar_witness :
    parse_type_tag (['a'] ++ '@' :: ['b']) = some (['a'], some ['b']) :=
  c2_tag_grammar.2.2.1 ['a'] ['b'] (by decide) (by decide) (by decide) (by decide)

/- ---- C4 ---- -/

/-- C4 (counterexample): an event carrying `type`, `data` AND an extra
key `extra` is accepted (here it cleanly declares a new type `Foo`),
refuting "an event object that contains both 'type' and 'data' but also
any additional key fails validation with MalformedEvent" — the source
never checks for extra keys. -/
theorem c4_extra_key_accepted :
    (validate_text 10 []
      [(.obj [("type", .str "TypeDeclared"),
              ("data", .obj [("name", .str "Foo"), ("schema", .obj [])]),
              ("extra", .int 0)], 0)] false).2 = VOut.ok := by
  decide

/-- C4 (amended): an event object must contain at least the keys `type`
(a string) and `data`; any additional keys are ignored — an event with
extra keys is processed exactly like the same event with only `type`
and `data`. -/
theorem c4_extra_keys_ignored (fuel : Nat) (st : VState) (t : String) (d : Json)
    (extra : List (String × Json)) (ei line col : Nat) :
    _validate_event fuel st (.obj (("type", .str t) :: ("data", d) :: extra)) ei line col =
    _validate_event fuel st (.obj [("type", .str t), ("data", d)]) ei line col := rfl

/- ---- state bookkeeping lemmas ---- -/

@[simp] lemma summaryTick_registry (st : VState) (tag : TypeTag) :
    (summaryTick st tag).registry = st.registry := by
  unfold summaryTick; split <;> rfl

@[simp] lemma summaryTick_declarators (st : VState) (tag : TypeTag) :
    (summaryTick st tag).declarator_candidates = st.declarator_candidates := by
  unfold summaryTick; split <;> rfl

@[simp] lemma declarerTick_registry (st : VState) :
    (declarerTick st).registry = st.registry := by
  unfold declarerTick; split <;> rfl

@[simp] lemma declarerTick_declarators (st : VState) :
    (declarerTick st).declarator_candidates = st.declarator_candidates := by
  unfold declarerTick; split <;> rfl

@[simp] lemma normalTick_registry (st : VState) :
    (normalTick st).registry = st.registry := by
  unfold normalTick; split <;> rfl

@[simp] lemma normalTick_declarators (st : VState) :
    (normalTick st).declarator_candidates = st.declarator_candidates := by
  unfold normalTick; split <;> rfl

lemma addTag_mem_self (l : List TypeTag) (t : TypeTag) : t ∈ addTag l t := by
  unfold addTag; split
  · assumption
  · exact List.mem_append_right _ (List.mem_singleton_self t)

lemma addTag_mem_of_mem {l : List TypeTag} {t : TypeTag} (u : TypeTag) (h : t ∈ l) :
    t ∈ addTag l u := by
  unfold addTag; split
  · exact h
  · exact List.mem_append_left _ h

lemma registerDeclared_declarators_mono {st : VState} {t : TypeTag}
    (tag : TypeTag) (ses : List (String × Json)) (h : t ∈ st.declarator_candidates) :
    t ∈ (registerDeclared st tag ses).declarator_candidates := by
  simp only [registerDeclared]
  repeat' split
  all_goals first | exact addTag_mem_of_mem tag h | exact h

/-- On every raising path of `_handle_declarer_event`, the state is
returned untouched: the source performs no mutation before its last
possible raise. -/
lemma handle_state_of_err (fuel : Nat) (st : VState) (n : List Char)
    (v : Option (List Char)) (payload : Json) (line col ei : Nat) (e : VErr) :
    (_handle_declarer_event fuel st n v payload line col ei).2 = .err e →
    (_handle_declarer_event fuel st n v payload line col ei).1 = st := by
  unfold _handle_declarer_event
  repeat' split
  all_goals intro h
  all_goals first | rfl | cases h

/-- The declarator set never loses an element across
`_handle_declarer_event`. -/
lemma handle_declarators_mono (fuel : Nat) (st : VState) (n : List Char)
    (v : Option (List Char)) (payload : Json) (line col ei : Nat) {t : TypeTag}
    (h : t ∈ st.declarator_candidates) :
    t ∈ (_handle_declarer_event fuel st n v payload line col ei).1.declarator_candidates := by
  unfold _handle_declarer_event
  repeat' split
  all_goals first | exact h | exact registerDeclared_declarators_mono _ _ h

/-- The declarator set never loses an element across `_validate_event`. -/
lemma event_declarators_mono (fuel : Nat) (st : VState) (obj : Json)
    (ei line col : Nat) {t : TypeTag} (h : t ∈ st.declarator_candidates) :
    t ∈ (_validate_event fuel st obj ei line col).1.declarator_candidates := by
  simp only [_validate_event]
  repeat' split
  all_goals
    first
      | exact h
      | simpa using h
      | (apply handle_declarators_mono; simpa using h)

/-- The declarator set never loses an element across a whole run. -/
lemma events_from_declarators_mono (fuel : Nat) (starts : List Nat) :
    ∀ (events : List (Json × Nat)) (st : VState) (k : Nat) {t : TypeTag},
    t ∈ st.declarator_candidates →
    t ∈ (validate_events_from fuel starts st events k).1.declarator_candidates := by
  intro events
  induction events with
  | nil => intro st k t h; exact h
  | cons ev rest ih =>
    intro st k t h
    rw [validate_events_from]
    cases hev : _validate_event fuel st ev.1 k (_pos_to_linecol starts ev.2).1
        (_pos_to_linecol starts ev.2).2 with
    | mk st' r =>
      have h' : t ∈ st'.declarator_candidates := by
        have := event_declarators_mono fuel st ev.1 k (_pos_to_linecol starts ev.2).1
          (_pos_to_linecol starts ev.2).2 h
        rwa [hev] at this
      cases r with
      | ok => simpa using ih { st' with event_count := st'.event_count + 1 } (k + 1) h'
      | err e => simpa using h'
      | div => simpa using h'

lemma registerDeclared_mem_self (st : VState) (tag : TypeTag) (ses : List (String × Json))
    (hlooks : _schema_looks_like_declarer (.obj ses) = true) :
    tag ∈ (registerDeclared st tag ses).declarator_candidates := by
  simp only [registerDeclared, hlooks, if_true]
  repeat' split
  all_goals exact addTag_mem_self _ _

/-- A successful `_handle_declarer_event` ends in the `registerDeclared`
state for the tag parsed from the payload's `name`. -/
lemma handle_ok_result (fuel : Nat) (st : VState) (n : List Char)
    (v : Option (List Char)) (pes : List (String × Json)) (rn : String)
    (ses : List (String × Json)) (dn : List Char) (dv : Option (List Char))
    (line col ei : Nat)
    (hname : lookupJ pes "name" = some (.str rn))
    (hschema : lookupJ pes "schema" = some (.obj ses))
    (hparse : parse_type_tag rn.data = some (dn, dv))
    (hok : (_handle_declarer_event fuel st n v (.obj pes) line col ei).2 = .ok) :
    (_handle_declarer_event fuel st n v (.obj pes) line col ei).1 =
      registerDeclared st ⟨dn, dv⟩ ses := by
  cases hreg : regGet st.registry ⟨n, v⟩ with
  | none =>
    simp only [_handle_declarer_event, hreg] at hok
    exact VOut.noConfusion hok
  | some ds =>
    cases hval : _validate_json fuel st.registry (.obj pes) ds line col ei (String.mk n) with
    | err e =>
      simp only [_handle_declarer_event, hreg, hval] at hok
      exact VOut.noConfusion hok
    | div =>
      simp only [_handle_declarer_event, hreg, hval] at hok
      exact VOut.noConfusion hok
    | ok =>
      by_cases hself : dn = "TypeDeclared".data ∧ dv = none
      · by_cases hdup : bootstrapTag ∈ st.declared_types
        · simp only [_handle_declarer_event, hreg, hval, hname, hschema, hparse,
            if_pos hself, if_pos hdup] at hok
          exact VOut.noConfusion hok
        · cases hsame : _same_typedeclared_schema ses with
          | none =>
            simp only [_handle_declarer_event, hreg, hval, hname, hschema, hparse,
              if_pos hself, if_neg hdup, hsame] at hok
            exact VOut.noConfusion hok
          | some b =>
            cases b with
            | false =>
              simp only [_handle_declarer_event, hreg, hval, hname, hschema, hparse,
                if_pos hself, if_neg hdup, hsame] at hok
              exact VOut.noConfusion hok
            | true =>
              simp only [_handle_declarer_event, hreg, hval, hname, hschema, hparse,
                if_pos hself, if_neg hdup, hsame]
      · simp only [_handle_declarer_event, hreg, hval, hname, hschema, hparse,
          if_neg hself]

/-- A successful declaration whose declared schema looks like a
declarer leaves the parsed tag in the declarator set. -/
lemma handle_registers_declarer (fuel : Nat) (st : VState) (n : List Char)
    (v : Option (List Char)) (pes : List (String × Json)) (rn : String)
    (ses : List (String × Json)) (dn : List Char) (dv : Option (List Char))
    (line col ei : Nat)
    (hname : lookupJ pes "name" = some (.str rn))
    (hschema : lookupJ pes "schema" = some (.obj ses))
    (hparse : parse_type_tag rn.data = some (dn, dv))
    (hok : (_handle_declarer_event fuel st n v (.obj pes) line col ei).2 = .ok)
    (hlooks : _schema_looks_like_declarer (.obj ses) = true) :
    (⟨dn, dv⟩ : TypeTag) ∈
      (_handle_declarer_event fuel st n v (.obj pes) line col ei).1.declarator_candidates := by
  rw [handle_ok_result fuel st n v pes rn ses dn dv line col ei hname hschema hparse hok]
  exact registerDeclared_mem_self st ⟨dn, dv⟩ ses hlooks

/- ---- C10 ---- -/

/-- C10: when processing an event raises a validation error, the
registry and the declarator set come out exactly as they went in — no
declaration is half-applied.  (The summary counters may well have been
bumped before the raise; the claim is about the registry and declarator
set only, and the source indeed performs every registry/declarator
mutation after its last possible raise.) -/
theorem c10_error_preserves_registry_and_declarators (fuel : Nat) (st : VState)
    (obj : Json) (ei line col : Nat) (e : VErr)
    (h : (_validate_event fuel st obj ei line col).2 = .err e) :
    (_validate_event fuel st obj ei line col).1.registry = st.registry ∧
    (_validate_event fuel st obj ei line col).1.declarator_candidates =
      st.declarator_candidates := by
  revert h
  simp only [_validate_event]
  repeat' split
  all_goals intro h
  all_goals
    first
      | exact ⟨rfl, rfl⟩
      | exact ⟨by simp, by simp⟩
      | (rw [handle_state_of_err _ _ _ _ _ _ _ _ _ h]; exact ⟨by simp, by simp⟩)

/-- C10 (witness): a malformed event (not an object) on the initial
state errors and leaves registry and declarator set intact. -/
theorem c10_error_preserves_witness :
    (_validate_event 5 (initState false) (.int 0) 0 1 1).1.registry =
      (initState false).registry ∧
    (_validate_event 5 (initState false) (.int 0) 0 1 1).1.declarator_candidates =
      (initState false).declarator_candidates :=
  c10_error_preserves_registry_and_declarators 5 (initState false) (.int 0) 0 1 1
    (.esml .eventNotObject 1 1 0) rfl

/- ---- C8 ---- -/

/-- C8: the declarator set starts as exactly the bootstrap tag, never
loses an entry across an event (in particular a re-declaration with a
non-declarer shape removes nothing) or across a whole run, and gains
the parsed tag whenever a successful declaration registers a schema
that matches the declarer shape. -/
theorem c8_declarator_set_monotone :
    (∀ cs, (initState cs).declarator_candidates = [bootstrapTag]) ∧
    (∀ fuel st obj ei line col (t : TypeTag), t ∈ st.declarator_candidates →
      t ∈ (_validate_event fuel st obj ei line col).1.declarator_candidates) ∧
    (∀ fuel starts events st k (t : TypeTag), t ∈ st.declarator_candidates →
      t ∈ (validate_events_from fuel starts st events k).1.declarator_candidates) ∧
    (∀ fuel st n v pes rn ses dn dv line col ei,
      lookupJ pes "name" = some (.str rn) →
      lookupJ pes "schema" = some (.obj ses) →
      parse_type_tag rn.data = some (dn, dv) →
      (_handle_declarer_event fuel st n v (.obj pes) line col ei).2 = .ok →
      _schema_looks_like_declarer (.obj ses) = true →
      (⟨dn, dv⟩ : TypeTag) ∈
        (_handle_declarer_event fuel st n v (.obj pes) line col ei).1.declarator_candidates) :=
  ⟨fun _ => rfl,
   fun fuel st obj ei line col _ h => event_declarators_mono fuel st obj ei line col h,
   fun fuel starts events st k _ h => events_from_declarators_mono fuel starts events st k h,
   fun fuel st n v pes rn ses dn dv line col ei h1 h2 h3 h4 h5 =>
     handle_registers_declarer fuel st n v pes rn ses dn dv line col ei h1 h2 h3 h4 h5⟩

/-- C8 (witness): the bootstrap tag survives a failing event on the
initial state. -/
theorem c8_declarator_set_monotone_witness :
    bootstrapTag ∈ (_validate_event 5 (initState false) (.int 0) 0 1 1).1.declarator_candidates :=
  c8_declarator_set_monotone.2.1 5 (initState false) (.int 0) 0 1 1 bootstrapTag
    (by decide)

/- ---- C7 ---- -/

lemma pyMem_str (a : String) : ∀ rs : List Json, pyMem (.str a) rs = hasStrElem rs a := by
  intro rs
  induction rs with
  | nil => rfl
  | cons y ys ih =>
    cases y <;> simp [pyMem, hasStrElem, pyEq, ih]

/-- C7: the declarer-shape predicate agrees with the spec's wording on
every schema; a successful declaration whose schema satisfies it adds
the declared tag to the declarator set; and an event whose tag is in
the declarator set is dispatched to the declaration handler (after the
summary ticks), not matched against its registry schema as ordinary
data. -/
theorem c7_declarer_predicate_and_dispatch :
    (∀ s : Json, _schema_looks_like_declarer s = declarerShapeFromSpec s) ∧
    (∀ fuel st n v pes rn ses dn dv line col ei,
      lookupJ pes "name" = some (.str rn) →
      lookupJ pes "schema" = some (.obj ses) →
      parse_type_tag rn.data = some (dn, dv) →
      (_handle_declarer_event fuel st n v (.obj pes) line col ei).2 = .ok →
      _schema_looks_like_declarer (.obj ses) = true →
      (⟨dn, dv⟩ : TypeTag) ∈
        (_handle_declarer_event fuel st n v (.obj pes) line col ei).1.declarator_candidates) ∧
    (∀ fuel st oes ts payload name ver ei line col,
      lookupJ oes "type" = some (.str ts) →
      lookupJ oes "data" = some payload →
      parse_type_tag ts.data = some (name, ver) →
      (⟨name, ver⟩ : TypeTag) ∈ st.declarator_candidates →
      _validate_event fuel st (.obj oes) ei line col =
        _handle_declarer_event fuel (declarerTick (summaryTick st ⟨name, ver⟩))
          name ver payload line col ei) := by
  refine ⟨?_, ?_, ?_⟩
  · intro s
    cases s
    case obj es =>
      simp only [_schema_looks_like_declarer, declarerShapeFromSpec]
      cases hlt : lookupJ es "type" with
      | none => simp
      | some t =>
        cases hlr : lookupJ es "required" with
        | none => cases t <;> simp [pyMem, pyEq]
        | some rv => cases t <;> cases rv <;> simp [pyMem, pyEq, pyMem_str]
    all_goals rfl
  · intro fuel st n v pes rn ses dn dv line col ei h1 h2 h3 h4 h5
    exact handle_registers_declarer fuel st n v pes rn ses dn dv line col ei h1 h2 h3 h4 h5
  · intro fuel st oes ts payload name ver ei line col htype hdata hparse hmem
    simp only [_validate_event, htype, hdata, hparse, summaryTick_declarators]
    rw [if_pos hmem]

/-- C7 (witness): on the fresh state, a `TypeDeclared` event is routed
to the declaration handler. -/
theorem c7_declarer_dispatch_witness :
    _validate_event 5 (initState false)
        (.obj [("type", .str "TypeDeclared"), ("data", .null)]) 0 1 1 =
      _handle_declarer_event 5
        (declarerTick (summaryTick (initState false) ⟨"TypeDeclared".data, none⟩))
        "TypeDeclared".data none .null 1 1 0 :=
  c7_declarer_predicate_and_dispatch.2.2 5 (initState false)
    [("type", .str "TypeDeclared"), ("data", .null)] "TypeDeclared" .null
    "TypeDeclared".data none 0 1 1 rfl rfl (by decide) (by decide)

/- ---- C9 ---- -/

/-- C9: `{"type": "integer"}` accepts exactly the integer values and
`{"type": "number"}` exactly the integer or float values; in
particular both reject the JSON literals `true`/`false` — the source's
explicit `isinstance(value, bool)` exclusion (in Python, bools ARE
ints, so without it `True` would pass as `1`). -/
theorem c9_numeric_reject_booleans (fuel : Nat) (reg : List (TypeTag × Json))
    (v : Json) (line col ei : Nat) (ctx : String) :
    (_validate_json (fuel + 1) reg v (.obj [("type", .str "integer")]) line col ei ctx = .ok ↔
      ∃ n : Int, v = .int n) ∧
    (_validate_json (fuel + 1) reg v (.obj [("type", .str "number")]) line col ei ctx = .ok ↔
      (∃ n : Int, v = .int n) ∨ (∃ q : Rat, v = .float q)) ∧
    (∀ b : Bool,
      _validate_json (fuel + 1) reg (.bool b) (.obj [("type", .str "integer")]) line col ei ctx =
        .err (.esml (.expectedInteger ctx) line col ei) ∧
      _validate_json (fuel + 1) reg (.bool b) (.obj [("type", .str "number")]) line col ei ctx =
        .err (.esml (.expectedNumber ctx) line col ei)) := by
  refine ⟨?_, ?_, ?_⟩
  · cases v <;> simp [_validate_json, lookupJ]
  · cases v <;> simp [_validate_json, lookupJ]
  · intro b; exact ⟨rfl, rfl⟩

/- ---- C3 ---- -/

lemma posOk_ok (line col ei : Nat) : PosOk line col ei .ok := by
  intro r l c i h; cases h

lemma posOk_div (line col ei : Nat) : PosOk line col ei .div := by
  intro r l c i h; cases h

lemma posOk_hostError (line col ei : Nat) : PosOk line col ei (.err .hostError) := by
  intro r l c i h
  injection h with h1
  exact VErr.noConfusion h1

lemma posOk_invalidTag (line col ei : Nat) (t : List Char) :
    PosOk line col ei (.err (.invalidTag t)) := by
  intro r l c i h
  injection h with h1
  exact VErr.noConfusion h1

lemma posOk_esml (line col ei : Nat) (reason : Reason) :
    PosOk line col ei (.err (.esml reason line col ei)) := by
  intro r l c i h
  injection h with h1
  injection h1 with _ h2 h3 h4
  exact ⟨h2.symm, h3.symm, h4.symm⟩

lemma posOk_seq {line col ei : Nat} {a : VOut} {k : Unit → VOut}
    (ha : PosOk line col ei a) (hk : PosOk line col ei (k ())) :
    PosOk line col ei (a.seq k) := by
  intro r l c i h
  cases a with
  | ok => exact hk r l c i h
  | err e => exact ha r l c i h
  | div => exact ha r l c i h

lemma posOk_foldl_seq {α : Type} {line col ei : Nat} (g : α → VOut)
    (hg : ∀ x, PosOk line col ei (g x)) :
    ∀ (xs : List α) (init : VOut), PosOk line col ei init →
    PosOk line col ei (xs.foldl (fun acc x => acc.seq (fun _ => g x)) init) := by
  intro xs
  induction xs with
  | nil => intro init h; exact h
  | cons x xs ih => intro init h; exact ih _ (posOk_seq h (hg x))

lemma posOk_checkRequiredOne (ves : List (String × Json)) (req : Json)
    (line col ei : Nat) (ctx : String) :
    PosOk line col ei (checkRequiredOne ves req line col ei ctx) := by
  cases req <;> simp only [checkRequiredOne]
  all_goals
    first
      | exact posOk_esml _ _ _ _
      | exact posOk_hostError _ _ _
      | (split
         · exact posOk_ok _ _ _
         · exact posOk_esml _ _ _ _)

/-- Every structured error the schema matcher can produce carries
exactly the `line`, `col` and `event_index` it was invoked with — no
position from inside the payload ever leaks out. -/
lemma posOk_validate_json (fuel : Nat) :
    ∀ (reg : List (TypeTag × Json)) (value schema : Json) (line col ei : Nat) (ctx : String),
    PosOk line col ei (_validate_json fuel reg value schema line col ei ctx) := by
  induction fuel with
  | zero => intro reg value schema line col ei ctx; exact posOk_div line col ei
  | succ fuel ih =>
    intro reg value schema line col ei ctx
    simp only [_validate_json]
    repeat' split
    all_goals
      repeat'
        first
          | exact posOk_ok _ _ _
          | exact posOk_div _ _ _
          | exact posOk_hostError _ _ _
          | exact posOk_invalidTag _ _ _ _
          | exact posOk_esml _ _ _ _
          | exact posOk_checkRequiredOne _ _ _ _ _ _
          | apply ih
          | apply posOk_seq
          | apply posOk_foldl_seq
          | split
          | intro x

/-- Every structured error out of `_handle_declarer_event` carries the
invocation's position data. -/
lemma posOk_handle (fuel : Nat) (st : VState) (n : List Char)
    (v : Option (List Char)) (payload : Json) (line col ei : Nat) :
    PosOk line col ei (_handle_declarer_event fuel st n v payload line col ei).2 := by
  cases hreg : regGet st.registry ⟨n, v⟩ with
  | none =>
    simp only [_handle_declarer_event, hreg]
    exact posOk_esml _ _ _ _
  | some ds =>
    cases hval : _validate_json fuel st.registry payload ds line col ei (String.mk n) with
    | err e =>
      simp only [_handle_declarer_event, hreg, hval]
      have h := posOk_validate_json fuel st.registry payload ds line col ei (String.mk n)
      rw [hval] at h
      exact h
    | div =>
      simp only [_handle_declarer_event, hreg, hval]
      exact posOk_div _ _ _
    | ok =>
      simp only [_handle_declarer_event, hreg, hval]
      repeat' split
      all_goals
        first
          | exact posOk_ok _ _ _
          | exact posOk_esml _ _ _ _
          | exact posOk_hostError _ _ _
          | exact posOk_invalidTag _ _ _ _

/-- Every structured error out of `_validate_event` carries the
invocation's event index and position. -/
lemma posOk_event (fuel : Nat) (st : VState) (obj : Json) (ei line col : Nat) :
    PosOk line col ei (_validate_event fuel st obj ei line col).2 := by
  simp only [_validate_event]
  repeat' split
  all_goals
    first
      | exact posOk_ok _ _ _
      | exact posOk_esml _ _ _ _
      | exact posOk_hostError _ _ _
      | exact posOk_invalidTag _ _ _ _
      | exact posOk_handle _ _ _ _ _ _ _ _
      | exact posOk_validate_json _ _ _ _ _ _ _ _

/-- Structured errors of a whole run point at the offending event: the
index is the event's position in the stream (counting from `k`) and the
line/column are computed from that event's start offset. -/
lemma events_from_err_pos (fuel : Nat) (starts : List Nat) :
    ∀ (events : List (Json × Nat)) (st : VState) (k : Nat)
      (reason : Reason) (l c i : Nat),
    (validate_events_from fuel starts st events k).2 = .err (.esml reason l c i) →
    k ≤ i ∧ ∃ ev, events.get? (i - k) = some ev ∧
      (l, c) = _pos_to_linecol starts ev.2 := by
  intro events
  induction events with
  | nil =>
    intro st k reason l c i h
    exact VOut.noConfusion h
  | cons ev rest ih =>
    intro st k reason l c i h
    rw [validate_events_from] at h
    cases hev : _validate_event fuel st ev.1 k (_pos_to_linecol starts ev.2).1
        (_pos_to_linecol starts ev.2).2 with
    | mk st' rr =>
      rw [hev] at h
      cases rr with
      | ok =>
        simp only at h
        obtain ⟨hk, ev', hget, hlc⟩ := ih _ _ reason l c i h
        refine ⟨Nat.le_of_succ_le hk, ev', ?_, hlc⟩
        have hik : i - k = (i - (k + 1)) + 1 := by omega
        rw [hik, List.get?_cons_succ]
        exact hget
      | err e =>
        simp only at h
        have hp := posOk_event fuel st ev.1 k (_pos_to_linecol starts ev.2).1
          (_pos_to_linecol starts ev.2).2
        rw [hev] at hp
        obtain ⟨h1, h2, h3⟩ := hp reason l c i h
        subst h3
        refine ⟨Nat.le_refl i, ev, ?_, ?_⟩
        · rw [Nat.sub_self]; rfl
        · rw [h1, h2]
      | div => exact VOut.noConfusion h

/-- C3 (counterexample): the event with `type` the empty string and
`data` null makes `parse_type_tag` raise its bare `ValueError`
("invalid type tag"), which escapes the run carrying neither an event
index nor a line/column — it is not the structured
`ESMLValidationError` the claim promises for every error (JSON decode
failures similarly escape as the host decoder's own exception). -/
theorem c3_unpositioned_error_counterexample :
    (validate_text 10 [] [(.obj [("type", .str ""), ("data", .null)], 0)] false).2 =
      VOut.err (.invalidTag []) := by decide

/-- C3 (amended): every error that IS reported as the structured
`ESMLValidationError` carries the zero-based index of the offending
event and the line/column computed from that event's first character —
never a position from inside the payload; but tag-parsing failures
(`InvalidTag`) escape as a bare, unpositioned `ValueError`, and JSON
decode failures abort with the host decoder's own error rather than the
structured one. -/
theorem c3_structured_errors_carry_event_position (fuel : Nat) (text : List Char)
    (events : List (Json × Nat)) (cs : Bool) (reason : Reason) (l c i : Nat)
    (h : (validate_text fuel text events cs).2 = .err (.esml reason l c i)) :
    ∃ ev, events.get? i = some ev ∧
      (l, c) = _pos_to_linecol (_line_starts text) ev.2 := by
  obtain ⟨hk, ev, hget, hlc⟩ :=
    events_from_err_pos fuel (_line_starts text) events (initState cs) 0 reason l c i h
  rw [Nat.sub_zero] at hget
  exact ⟨ev, hget, hlc⟩

/-- C3 (witness): the undeclared-type error on a concrete one-event
stream points at event 0, line 1, column 1. -/
theorem c3_structured_errors_witness :
    ∃ ev, [((Json.obj [("type", Json.str "X"), ("data", Json.null)]), 0)].get? 0 = some ev ∧
      ((1 : Nat), (1 : Nat)) = _pos_to_linecol (_line_starts []) ev.2 :=
  c3_structured_errors_carry_event_position 10 []
    [(.obj [("type", .str "X"), ("data", .null)], 0)] false
    (.usedBeforeDeclaration "X".data none) 1 1 0 (by decide)

/-- C5 (counterexample): a FIRST self-declaration of the bootstrap tag
whose schema differs from the builtin — its `properties` member is the
number `5` — does not fail with `SelfDeclarationShapeMismatch`: the
comparison itself crashes with a host `TypeError` (`dict(5)` inside
`normalize`), refuting "any other difference fails with
SelfDeclarationShapeMismatch". -/
theorem c5_shape_mismatch_counterexample :
    (validate_text 10 []
      [(.obj [("type", .str "TypeDeclared"),
              ("data", .obj [("name", .str "TypeDeclared"),
                             ("schema", .obj [("properties", .int 5)])])], 0)] false).2 =
    VOut.err .hostError := by decide

/-- C5 (amended): a first declaration of the bootstrap tag (the
declarer's own validation having succeeded) succeeds exactly when the
supplied schema equals the builtin under `_same_typedeclared_schema` —
Python `==` after both sides' `properties` were rebuilt with any `log`
entry stripped; when that comparison yields `false` the event fails
with `SelfDeclarationShapeMismatch`; but a `properties` value that
`dict()` cannot convert (e.g. a number) makes the comparison raise a
host `TypeError` instead of the structured error. -/
theorem c5_first_self_declaration (fuel : Nat) (st : VState) (n : List Char)
    (v : Option (List Char)) (pes ses : List (String × Json)) (rn : String)
    (line col ei : Nat)
    (hname : lookupJ pes "name" = some (.str rn))
    (hschema : lookupJ pes "schema" = some (.obj ses))
    (hparse : parse_type_tag rn.data = some ("TypeDeclared".data, none))
    (hfirst : bootstrapTag ∉ st.declared_types) :
    ((_handle_declarer_event fuel st n v (.obj pes) line col ei).2 = .ok ↔
      (∃ ds, regGet st.registry ⟨n, v⟩ = some ds ∧
        _validate_json fuel st.registry (.obj pes) ds line col ei (String.mk n) = .ok) ∧
      _same_typedeclared_schema ses = some true) ∧
    (∀ ds, regGet st.registry ⟨n, v⟩ = some ds →
      _validate_json fuel st.registry (.obj pes) ds line col ei (String.mk n) = .ok →
      _same_typedeclared_schema ses = some false →
      (_handle_declarer_event fuel st n v (.obj pes) line col ei).2 =
        .err (.esml .selfDeclShapeMismatch line col ei)) := by
  constructor
  · constructor
    · intro hok
      cases hreg : regGet st.registry ⟨n, v⟩ with
      | none =>
        simp only [_handle_declarer_event, hreg] at hok
        exact VOut.noConfusion hok
      | some ds =>
        cases hval : _validate_json fuel st.registry (.obj pes) ds line col ei (String.mk n) with
        | err e =>
          simp only [_handle_declarer_event, hreg, hval] at hok
          exact VOut.noConfusion hok
        | div =>
          simp only [_handle_declarer_event, hreg, hval] at hok
          exact VOut.noConfusion hok
        | ok =>
          refine ⟨⟨ds, rfl, hval⟩, ?_⟩
          cases hsame : _same_typedeclared_schema ses with
          | none =>
            simp only [_handle_declarer_event, hreg, hval, hname, hschema, hparse,
              and_self, if_true, if_neg hfirst, hsame] at hok
            exact VOut.noConfusion hok
          | some b =>
            cases b with
            | false =>
              simp only [_handle_declarer_event, hreg, hval, hname, hschema, hparse,
                and_self, if_true, if_neg hfirst, hsame] at hok
              exact VOut.noConfusion hok
            | true => rfl
    · rintro ⟨⟨ds, hreg, hval⟩, hsame⟩
      simp only [_handle_declarer_event, hreg, hval, hname, hschema, hparse,
        and_self, if_true, if_neg hfirst, hsame]
  · intro ds hreg hval hsame
    simp only [_handle_declarer_event, hreg, hval, hname, hschema, hparse,
      and_self, if_true, if_neg hfirst, hsame]

/-- C5 (witness): on the fresh state, the first self-declaration with
exactly the builtin schema succeeds. -/
theorem c5_first_self_declaration_witness :
    (_handle_declarer_event 10 (initState false) "TypeDeclared".data none
        (.obj [("name", .str "TypeDeclared"), ("schema", BUILTIN_TYPEDECLARED_SCHEMA)])
        1 1 0).2 = .ok :=
  ((c5_first_self_declaration 10 (initState false) "TypeDeclared".data none
      [("name", .str "TypeDeclared"), ("schema", BUILTIN_TYPEDECLARED_SCHEMA)]
      BUILTIN_entries "TypeDeclared" 1 1 0 rfl rfl (by decide) (by decide)).1).mpr
    ⟨⟨BUILTIN_TYPEDECLARED_SCHEMA, rfl, by decide⟩, by decide⟩

/- ---- C6 ---- -/

lemma strStartsWith_append (p s : List Char) : strStartsWith p (p ++ s) = true := by
  induction p with
  | nil => rfl
  | cons x xs ih => simp [strStartsWith, ih]

/-- C6: validating any value against `&#123;"$ref": "#/$defs/g"&#125;` resolves
`g` through the tag parser and the registry and yields exactly the
result of validating against the registered schema directly (the `$ref`
hop costs one unit of recursion depth, hence the fuel offset), and an
unregistered tag fails with the `$ref ... not found` error
(`UnresolvedRef`). -/
theorem c6_ref_roundtrip (fuel : Nat) (reg : List (TypeTag × Json)) (value : Json)
    (g : String) (n : List Char) (ver : Option (List Char)) (S : Json)
    (line col ei : Nat) (ctx : String)
    (hparse : parse_type_tag g.data = some (n, ver)) :
    (regGet reg ⟨n, ver⟩ = some S →
      _validate_json (fuel + 1) reg value (.obj [("$ref", .str ("#/$defs/" ++ g))]) line col ei ctx
        = _validate_json fuel reg value S line col ei ctx) ∧
    (regGet reg ⟨n, ver⟩ = none →
      _validate_json (fuel + 1) reg value (.obj [("$ref", .str ("#/$defs/" ++ g))]) line col ei ctx
        = .err (.esml (.refNotFound ctx n ver) line col ei)) := by
  have hss : ∀ l : List Char,
      strStartsWith ['#', '/', '$', 'd', 'e', 'f', 's', '/']
        ('#' :: '/' :: '$' :: 'd' :: 'e' :: 'f' :: 's' :: '/' :: l) = true := fun l => by
    simp [strStartsWith]
  have hdrop : ∀ l : List Char,
      List.drop 8 ('#' :: '/' :: '$' :: 'd' :: 'e' :: 'f' :: 's' :: '/' :: l) = l :=
    fun _ => rfl
  constructor <;> intro h <;>
    simp [_validate_json, lookupJ, hss, hdrop, hparse, h]

/-- C6 (witness): the round trip at a concrete registry, tag and value. -/
theorem c6_ref_roundtrip_witness :
    _validate_json 4 [(⟨['T'], none⟩, .obj [("type", .str "string")])] (.str "x")
      (.obj [("$ref", .str ("#/$defs/" ++ "T"))]) 1 1 0 "c"
      = _validate_json 3 [(⟨['T'], none⟩, .obj [("type", .str "string")])] (.str "x")
          (.obj [("type", .str "string")]) 1 1 0 "c" :=
  (c6_ref_roundtrip 3 [(⟨['T'], none⟩, .obj [("type", .str "string")])] (.str "x")
    "T" ['T'] none (.obj [("type", .str "string")]) 1 1 0 "c" (by decide)).1 rfl

